import Mathlib

/-!
# Verification of `vue-use-fixed-header` (`src/index.ts`)

A shallow embedding of the scroll-driven header visibility logic of
`useFixedHeader`.  Scroll offsets, header heights and timestamps are
modelled as rationals (`ℚ`); JavaScript IEEE-754 division results that
can be `NaN` or `Infinity` are modelled by the inductive type `JSNum`.
The single-threaded event loop is modelled by a small-step transition
relation: one step is either a processed scroll event (the handler
returned by `createScrollHandler`) or one animation-frame tick of an
in-flight `captureDelta` run.

The files `src/constants.ts`, `src/utils.ts` and `src/types.ts` of the
repository are not available; the constants they provide
(`CAPTURE_DELTA_FRAME_COUNT`, `VISIBILITY_VISIBLE`, `VISIBILITY_HIDDEN`)
are modelled from the spec where needed.
-/

namespace FixedHeader

/-- JavaScript number results relevant to the velocity computation:
either a finite rational, positive infinity, or `NaN`. -/
inductive JSNum where
  | nan : JSNum
  | inf : JSNum
  | fin (q : ℚ) : JSNum
deriving DecidableEq, Repr

/-- JavaScript division `a / b` for `a ≥ 0`, `b ≥ 0` (the velocity
computation divides a nonnegative displacement `Math.abs(startY - nextY)`
by a nonnegative elapsed time): `0 / 0 = NaN`, `a / 0 = Infinity` for
`a > 0`, otherwise the finite quotient. -/
def jsDiv (a b : ℚ) : JSNum :=
  if b = 0 then (if a = 0 then .nan else .inf) else .fin (a / b)

/-- JavaScript comparison `v >= d` for a finite threshold `d`:
`NaN >= d` is `false`, `Infinity >= d` is `true`, finite compares
numerically. -/
def JSNum.geQ : JSNum → ℚ → Bool
  | .nan, _ => false
  | .inf, _ => true
  | .fin q, d => decide (d ≤ q)

/-- Direction of a velocity sample: `enter` for the moving-up
(`captureEnterDelta`) sample, `leave` for the moving-down
(`captureLeaveDelta`) sample. -/
inductive Dir where
  | enter : Dir
  | leave : Dir
deriving DecidableEq, Repr

/-- One in-flight `captureDelta` run: its direction, the
`performance.now()` timestamp and scroll offset captured when it
started (`startMs`, `startY`), and its `frameCount`. -/
structure Sample where
  dir : Dir
  startMs : ℚ
  startY : ℚ
  frameCount : ℕ
deriving DecidableEq, Repr

/-- Inline style state of the target element, as an ordered list of
(property, value) pairs; a later assignment to a property replaces the
earlier one. -/
abbrev Styles := List (String × String)

/-- One `el.style` property assignment (one key of an `Object.assign`). -/
def setProp (st : Styles) (k v : String) : Styles :=
  (st.filter (fun p => p.1 ≠ k)) ++ [(k, v)]

/-- `Object.assign(el.style, styles)`: assign each property of `styles`
in order onto the current inline styles. -/
def applyStyles (st : Styles) (styles : Styles) : Styles :=
  styles.foldl (fun acc p => setProp acc p.1 p.2) st

/-- Modelled from the spec: `VISIBILITY_HIDDEN` from the missing
`src/constants.ts`, the style set forcing the `hidden` visibility
value. -/
def VISIBILITY_HIDDEN : Styles := [("visibility", "hidden")]

/-- Modelled from the spec: `VISIBILITY_VISIBLE` from the missing
`src/constants.ts`, the explicit visible-visibility override. -/
def VISIBILITY_VISIBLE : Styles := [("visibility", "visible")]

/-- The merged options relevant to the decision engine and the style
applicator, plus `CAPTURE_DELTA_FRAME_COUNT` (from the missing
`src/constants.ts`, kept parametric since the spec fixes no numeric
value for the sampling window). -/
structure Config where
  enterDelta : ℚ
  leaveDelta : ℚ
  enterStyles : Styles
  leaveStyles : Styles
  captureDeltaFrameCount : ℕ
deriving Repr

/-- The closure state of `createScrollHandler`. -/
structure HandlerState where
  captureEnterDelta : Bool
  captureLeaveDelta : Bool
  prevTop : ℚ
deriving DecidableEq, Repr

/-- The state of the composable: the reactive `isVisible` flag, the
`isListeningScroll` flag, the set of scroll roots on which the
`onScroll` listener is currently registered (roots are identified by a
natural number; `addEventListener` with the same listener is
idempotent, so registration is set-like and `attachedRoots` is kept
duplicate-free), whether the `ResizeObserver` is observing, the scroll
handler's closure state, and the multiset (list) of in-flight
`captureDelta` runs. -/
structure AppState where
  isVisible : Bool
  isListeningScroll : Bool
  attachedRoots : List ℕ
  observerConnected : Bool
  handler : HandlerState
  samples : List Sample
deriving DecidableEq, Repr

/-- `createScrollHandler`'s fresh closure state (`captureEnterDelta`
and `captureLeaveDelta` initialised to `true`, `prevTop` to `0`). -/
def initHandler : HandlerState :=
  { captureEnterDelta := true, captureLeaveDelta := true, prevTop := 0 }

/-- Initial composable state: `isVisible` is `ref(true)`, no listener
attached, no observer, fresh handler closure, no in-flight samples. -/
def initState : AppState :=
  { isVisible := true
    isListeningScroll := false
    attachedRoots := []
    observerConnected := false
    handler := initHandler
    samples := [] }

/-- The scroll handler returned by `createScrollHandler`, processing
one scroll event.  `now` is `performance.now()` at this turn, `top` is
`getScrollTop()` (constant within the single-threaded turn) and `hh`
is `getHeaderHeight()`.  Starting a `captureDelta` run appends an
in-flight sample with `startMs = now`, `startY = top`,
`frameCount = 0`. -/
def scrollStep (now top hh : ℚ) (s : AppState) : AppState :=
  let isTopReached : Bool := decide (top ≤ hh)
  let isScrollingUp : Bool := decide (top < s.handler.prevTop)
  let isScrollingDown : Bool := decide (top > s.handler.prevTop)
  let s1 :=
    if isTopReached then
      { s with isVisible := true }
    else
      if s.handler.prevTop ≠ 0 then
        if isScrollingUp && s.handler.captureEnterDelta then
          { s with
              handler := { s.handler with captureEnterDelta := false }
              samples := s.samples ++ [⟨.enter, now, top, 0⟩] }
        else if isScrollingDown && s.handler.captureLeaveDelta then
          { s with
              handler := { s.handler with captureLeaveDelta := false }
              samples := s.samples ++ [⟨.leave, now, top, 0⟩] }
        else s
      else s
  { s1 with handler := { s1.handler with prevTop := top } }

/-- The non-final branch of `rafDelta`: `frameCount++` and reschedule. -/
def bumpSample (smp : Sample) : Sample :=
  { smp with frameCount := smp.frameCount + 1 }

/-- The value `Math.abs(startY - nextY) / (performance.now() - startMs)`
delivered by `captureDelta` on its final tick. -/
def capturedValue (smp : Sample) (now nextY : ℚ) : JSNum :=
  jsDiv |smp.startY - nextY| (now - smp.startMs)

/-- The `onCaptured` callback passed to `captureDelta` by the scroll
handler: for the enter direction, `isVisible := true` when
`value >= enterDelta` (JavaScript comparison), then
`captureEnterDelta := true`; symmetrically for the leave direction. -/
def deliverStep (cfg : Config) (d : Dir) (value : JSNum) (s : AppState) : AppState :=
  match d with
  | .enter =>
      { s with
          isVisible := if value.geQ cfg.enterDelta then true else s.isVisible
          handler := { s.handler with captureEnterDelta := true } }
  | .leave =>
      { s with
          isVisible := if value.geQ cfg.leaveDelta then false else s.isVisible
          handler := { s.handler with captureLeaveDelta := true } }

/-- Small-step transitions of the event loop: a processed scroll event,
a non-final animation-frame tick of one in-flight sample, or the final
tick of one in-flight sample, which delivers its result and schedules
no further tick.  `performance.now()` is monotone, so the final tick's
`now` is at least the sample's `startMs`. -/
inductive Step (cfg : Config) : AppState → AppState → Prop
  | scroll (now top hh : ℚ) (s : AppState) :
      Step cfg s (scrollStep now top hh s)
  | tickCont (s : AppState) (pre post : List Sample) (smp : Sample) :
      s.samples = pre ++ smp :: post →
      smp.frameCount ≠ cfg.captureDeltaFrameCount →
      Step cfg s { s with samples := pre ++ bumpSample smp :: post }
  | tickDone (s : AppState) (pre post : List Sample) (smp : Sample)
      (now nextY : ℚ) :
      s.samples = pre ++ smp :: post →
      smp.frameCount = cfg.captureDeltaFrameCount →
      smp.startMs ≤ now →
      Step cfg s
        (deliverStep cfg smp.dir (capturedValue smp now nextY)
          { s with samples := pre ++ post })

/-- States reachable from the initial composable state. -/
inductive Reachable (cfg : Config) : AppState → Prop
  | init : Reachable cfg initState
  | step {s t : AppState} : Reachable cfg s → Step cfg s t → Reachable cfg t

/-- Number of in-flight samples of direction `d`. -/
def dirCount (d : Dir) (samples : List Sample) : ℕ :=
  (samples.filter (fun smp => smp.dir = d)).length

end FixedHeader

namespace FixedHeader

/-- C1: a processed scroll event whose current offset is at most the
header extent sets the visibility flag to `true`, for every handler
closure state, every in-flight sample set and every previous offset. -/
theorem scroll_at_top_forces_visible (now top hh : ℚ) (s : AppState)
    (h : top ≤ hh) :
    (scrollStep now top hh s).isVisible = true := by
  simp [scrollStep, h]

/-- Witness for C1 at `top = 3`, `hh = 5`. -/
theorem scroll_at_top_forces_visible_witness :
    (3 : ℚ) ≤ 5 ∧ (scrollStep 7 3 5 initState).isVisible = true :=
  ⟨by norm_num, scroll_at_top_forces_visible 7 3 5 initState (by norm_num)⟩

/-- C5: when `prevTop = 0` and the offset exceeds the header extent, a
scroll event performs no transition: it only updates `prevTop` to the
current offset (no sample started, no flag change); the guard does not
apply to the at-top zone, where the flag is still forced to `true`. -/
theorem scroll_prevTop_zero_guard (now top hh : ℚ) (s : AppState)
    (h0 : s.handler.prevTop = 0) :
    (hh < top →
      scrollStep now top hh s =
        { s with handler := { s.handler with prevTop := top } }) ∧
    (top ≤ hh → (scrollStep now top hh s).isVisible = true) := by
  constructor
  · intro hlt
    have hns : ¬ top ≤ hh := not_le.mpr hlt
    simp [scrollStep, h0, hns]
  · intro hle
    simp [scrollStep, hle]

/-- Witness for C5 at `prevTop = 0`, `top = 100`, `hh = 5`. -/
theorem scroll_prevTop_zero_guard_witness :
    initState.handler.prevTop = 0 ∧
    (((5 : ℚ) < 100 →
        scrollStep 2 100 5 initState =
          { initState with
              handler := { initState.handler with prevTop := 100 } }) ∧
     ((100 : ℚ) ≤ 5 → (scrollStep 2 100 5 initState).isVisible = true)) :=
  ⟨rfl, scroll_prevTop_zero_guard 2 100 5 initState rfl⟩

/-! ## Characterisation lemmas for the scroll handler and the callback -/

/-- The per-direction re-entrancy guard of the scroll handler's
closure. -/
def captureFlag : Dir → HandlerState → Bool
  | .enter, h => h.captureEnterDelta
  | .leave, h => h.captureLeaveDelta

lemma dirCount_append (d : Dir) (l1 l2 : List Sample) :
    dirCount d (l1 ++ l2) = dirCount d l1 + dirCount d l2 := by
  simp [dirCount, List.filter_append]

lemma dirCount_cons (d : Dir) (smp : Sample) (l : List Sample) :
    dirCount d (smp :: l) =
      (if smp.dir = d then 1 else 0) + dirCount d l := by
  simp only [dirCount, List.filter_cons]
  split
  · next h =>
      simp only [List.length_cons, if_pos (by simpa using h)]
      omega
  · next h =>
      simp only [if_neg (by simpa using h)]
      omega

lemma dirCount_singleton (d : Dir) (smp : Sample) :
    dirCount d [smp] = if smp.dir = d then 1 else 0 := by
  rw [show [smp] = smp :: [] from rfl, dirCount_cons]
  simp [dirCount]

/-- A processed scroll event either leaves the in-flight samples and
both guards unchanged, or starts exactly one `enter` sample (guard was
armed, becomes disarmed), or starts exactly one `leave` sample. -/
lemma scrollStep_cases (now top hh : ℚ) (s : AppState) :
    ((scrollStep now top hh s).samples = s.samples ∧
     (scrollStep now top hh s).handler.captureEnterDelta =
        s.handler.captureEnterDelta ∧
     (scrollStep now top hh s).handler.captureLeaveDelta =
        s.handler.captureLeaveDelta) ∨
    (s.handler.captureEnterDelta = true ∧
     (scrollStep now top hh s).samples =
        s.samples ++ [⟨.enter, now, top, 0⟩] ∧
     (scrollStep now top hh s).handler.captureEnterDelta = false ∧
     (scrollStep now top hh s).handler.captureLeaveDelta =
        s.handler.captureLeaveDelta) ∨
    (s.handler.captureLeaveDelta = true ∧
     (scrollStep now top hh s).samples =
        s.samples ++ [⟨.leave, now, top, 0⟩] ∧
     (scrollStep now top hh s).handler.captureLeaveDelta = false ∧
     (scrollStep now top hh s).handler.captureEnterDelta =
        s.handler.captureEnterDelta) := by
  by_cases h1 : top ≤ hh
  · left; simp [scrollStep, h1]
  · by_cases h2 : s.handler.prevTop = 0
    · left; simp [scrollStep, h1, h2]
    · by_cases h3 : top < s.handler.prevTop
      · by_cases h4 : s.handler.captureEnterDelta = true
        · right; left
          have h5 : ¬ s.handler.prevTop < top := by linarith
          simp [scrollStep, h1, h2, h3, h4, h5]
        · left
          have h5 : ¬ s.handler.prevTop < top := by linarith
          simp [scrollStep, h1, h2, h3, h4, h5]
      · by_cases h5 : s.handler.prevTop < top
        · by_cases h6 : s.handler.captureLeaveDelta = true
          · right; right; simp [scrollStep, h1, h2, h3, h5, h6]
          · left; simp [scrollStep, h1, h2, h3, h5, h6]
        · left; simp [scrollStep, h1, h2, h3, h5]

/-- A scroll event with offset past the header, nonzero `prevTop`,
moving up, and an armed enter guard starts exactly one enter sample. -/
lemma scrollStep_starts_enter (now top hh : ℚ) (s : AppState)
    (h1 : hh < top) (h2 : s.handler.prevTop ≠ 0)
    (h3 : top < s.handler.prevTop)
    (h4 : s.handler.captureEnterDelta = true) :
    scrollStep now top hh s =
      { s with
          handler :=
            { captureEnterDelta := false
              captureLeaveDelta := s.handler.captureLeaveDelta
              prevTop := top }
          samples := s.samples ++ [⟨.enter, now, top, 0⟩] } := by
  have hns : ¬ top ≤ hh := not_le.mpr h1
  have h5 : ¬ s.handler.prevTop < top := by linarith
  simp [scrollStep, hns, h2, h3, h4, h5]

/-- A scroll event with offset past the header, nonzero `prevTop`,
moving down, and an armed leave guard starts exactly one leave
sample. -/
lemma scrollStep_starts_leave (now top hh : ℚ) (s : AppState)
    (h1 : hh < top) (h2 : s.handler.prevTop ≠ 0)
    (h3 : s.handler.prevTop < top)
    (h4 : s.handler.captureLeaveDelta = true) :
    scrollStep now top hh s =
      { s with
          handler :=
            { captureEnterDelta := s.handler.captureEnterDelta
              captureLeaveDelta := false
              prevTop := top }
          samples := s.samples ++ [⟨.leave, now, top, 0⟩] } := by
  have hns : ¬ top ≤ hh := not_le.mpr h1
  have h5 : ¬ top < s.handler.prevTop := by linarith
  simp [scrollStep, hns, h2, h3, h4, h5]

lemma deliverStep_samples (cfg : Config) (d : Dir) (v : JSNum)
    (s : AppState) : (deliverStep cfg d v s).samples = s.samples := by
  cases d <;> rfl

lemma deliverStep_prevTop (cfg : Config) (d : Dir) (v : JSNum)
    (s : AppState) :
    (deliverStep cfg d v s).handler.prevTop = s.handler.prevTop := by
  cases d <;> rfl

/-- The callback re-arms its own direction's guard unconditionally. -/
lemma deliverStep_flag_self (cfg : Config) (d : Dir) (v : JSNum)
    (s : AppState) :
    captureFlag d (deliverStep cfg d v s).handler = true := by
  cases d <;> rfl

/-- The callback leaves the other direction's guard unchanged. -/
lemma deliverStep_flag_other (cfg : Config) (d d' : Dir) (v : JSNum)
    (s : AppState) (h : d' ≠ d) :
    captureFlag d' (deliverStep cfg d v s).handler =
      captureFlag d' s.handler := by
  cases d <;> cases d' <;> simp_all [captureFlag, deliverStep]

/-! ## The re-entrancy invariant -/

/-- Strengthened invariant: for each direction, the number of in-flight
samples is bounded by 0 when the guard is armed and by 1 when it is
disarmed. -/
def SampleInv (s : AppState) : Prop :=
  ∀ d : Dir,
    dirCount d s.samples ≤ if captureFlag d s.handler then 0 else 1

lemma sampleInv_init : SampleInv initState := by
  intro d
  cases d <;> simp [initState, initHandler, dirCount, captureFlag]

lemma sampleInv_step (cfg : Config) {s t : AppState}
    (hinv : SampleInv s) (hst : Step cfg s t) : SampleInv t := by
  cases hst with
  | scroll now top hh s =>
      rcases scrollStep_cases now top hh s with
        ⟨hsamp, he, hl⟩ | ⟨hflag, hsamp, he, hl⟩ | ⟨hflag, hsamp, he, hl⟩
      · intro d
        have := hinv d
        cases d <;> simpa [captureFlag, hsamp, he, hl] using this
      · have h0 : dirCount .enter s.samples = 0 := by
          have := hinv .enter
          simpa [captureFlag, hflag] using this
        intro d
        cases d with
        | enter =>
            simp [captureFlag, hsamp, he, hl, dirCount_append,
              dirCount_singleton, h0]
        | leave =>
            have := hinv .leave
            simpa [captureFlag, hsamp, he, hl, dirCount_append,
              dirCount_singleton] using this
      · have h0 : dirCount .leave s.samples = 0 := by
          have := hinv .leave
          simpa [captureFlag, hflag] using this
        intro d
        cases d with
        | enter =>
            have := hinv .enter
            simpa [captureFlag, hsamp, he, hl, dirCount_append,
              dirCount_singleton] using this
        | leave =>
            simp [captureFlag, hsamp, he, hl, dirCount_append,
              dirCount_singleton, h0]
  | tickCont s pre post smp hsamp hne =>
      intro d
      have := hinv d
      rw [hsamp] at this
      simpa [dirCount_append, dirCount_cons, bumpSample] using this
  | tickDone s pre post smp now nextY hsamp hfc hmono =>
      have hcount := hinv smp.dir
      rw [hsamp, dirCount_append, dirCount_cons] at hcount
      have hone : (if smp.dir = smp.dir then 1 else 0) = 1 := by simp
      rw [hone] at hcount
      have hflag : captureFlag smp.dir s.handler = false := by
        cases hcf : captureFlag smp.dir s.handler
        · rfl
        · rw [hcf, if_pos rfl] at hcount; omega
      have hrest : dirCount smp.dir pre + dirCount smp.dir post = 0 := by
        rw [hflag] at hcount
        simp only [if_neg (Bool.false_ne_true)] at hcount
        omega
      intro d
      by_cases hd : d = smp.dir
      · subst hd
        rw [deliverStep_flag_self]
        simp only [if_pos]
        have hs :
            (deliverStep cfg smp.dir (capturedValue smp now nextY)
              { s with samples := pre ++ post }).samples = pre ++ post := by
          rw [deliverStep_samples]
        rw [hs, dirCount_append]
        omega
      · have hflag' :
            captureFlag d (deliverStep cfg smp.dir
              (capturedValue smp now nextY)
              { s with samples := pre ++ post }).handler =
              captureFlag d s.handler := by
          rw [deliverStep_flag_other _ _ _ _ _ hd]
        have := hinv d
        rw [hsamp, dirCount_append, dirCount_cons] at this
        have hne' : ¬ smp.dir = d := fun h => hd h.symm
        rw [if_neg hne'] at this
        rw [hflag',
          deliverStep_samples, dirCount_append]
        omega

/-- `SampleInv` holds in every reachable state. -/
lemma sampleInv_reachable (cfg : Config) {s : AppState}
    (hr : Reachable cfg s) : SampleInv s := by
  induction hr with
  | init => exact sampleInv_init
  | step _ hst ih => exact sampleInv_step cfg ih hst

end FixedHeader

namespace FixedHeader

/-- A sample configuration used by concrete witnesses:
`enterDelta = 1/2`, `leaveDelta = 3/10`, empty enter styles,
`opacity: 0` leave styles, a 10-frame sampling window. -/
def exCfg : Config :=
  { enterDelta := 1/2
    leaveDelta := 3/10
    enterStyles := [("transform", "none")]
    leaveStyles := [("opacity", "0")]
    captureDeltaFrameCount := 10 }

/-- C2: in every reachable state there is at most one in-flight enter
sample and at most one in-flight leave sample, and a scroll event
processed while a direction's sample is in flight starts no second
sample for that direction. -/
theorem at_most_one_sample_per_direction (cfg : Config) (s : AppState)
    (hr : Reachable cfg s) :
    (dirCount .enter s.samples ≤ 1 ∧ dirCount .leave s.samples ≤ 1) ∧
    (∀ now top hh : ℚ, 1 ≤ dirCount .enter s.samples →
        dirCount .enter (scrollStep now top hh s).samples =
          dirCount .enter s.samples) ∧
    (∀ now top hh : ℚ, 1 ≤ dirCount .leave s.samples →
        dirCount .leave (scrollStep now top hh s).samples =
          dirCount .leave s.samples) := by
  have hinv := sampleInv_reachable cfg hr
  refine ⟨⟨?_, ?_⟩, ?_, ?_⟩
  · have := hinv .enter
    split at this <;> omega
  · have := hinv .leave
    split at this <;> omega
  · intro now top hh hge
    have hflag : s.handler.captureEnterDelta = false := by
      cases hcf : s.handler.captureEnterDelta
      · rfl
      · have := hinv .enter
        rw [captureFlag, hcf, if_pos rfl] at this
        omega
    rcases scrollStep_cases now top hh s with
      ⟨hsamp, _, _⟩ | ⟨hf, _, _⟩ | ⟨_, hsamp, _, _⟩
    · rw [hsamp]
    · rw [hflag] at hf; exact absurd hf (Bool.false_ne_true)
    · rw [hsamp, dirCount_append, dirCount_singleton]
      simp
  · intro now top hh hge
    have hflag : s.handler.captureLeaveDelta = false := by
      cases hcf : s.handler.captureLeaveDelta
      · rfl
      · have := hinv .leave
        rw [captureFlag, hcf, if_pos rfl] at this
        omega
    rcases scrollStep_cases now top hh s with
      ⟨hsamp, _, _⟩ | ⟨_, hsamp, _, _⟩ | ⟨hf, _, _⟩
    · rw [hsamp]
    · rw [hsamp, dirCount_append, dirCount_singleton]
      simp
    · rw [hflag] at hf; exact absurd hf (Bool.false_ne_true)

/-- Witness for C2 at the initial state. -/
theorem at_most_one_sample_per_direction_witness :
    Reachable exCfg initState ∧
    ((dirCount .enter initState.samples ≤ 1 ∧
      dirCount .leave initState.samples ≤ 1) ∧
     (∀ now top hh : ℚ, 1 ≤ dirCount .enter initState.samples →
        dirCount .enter (scrollStep now top hh initState).samples =
          dirCount .enter initState.samples) ∧
     (∀ now top hh : ℚ, 1 ≤ dirCount .leave initState.samples →
        dirCount .leave (scrollStep now top hh initState).samples =
          dirCount .leave initState.samples)) :=
  ⟨Reachable.init,
    at_most_one_sample_per_direction exCfg initState Reachable.init⟩

/-- C10: the `onCaptured` callback re-arms its direction's guard in the
same callback, for every delivered value (threshold met or not), and a
subsequent scroll event classified in that direction starts a fresh
sample. -/
theorem guard_rearmed_after_delivery (cfg : Config) (d : Dir)
    (v : JSNum) (s : AppState) (now top hh : ℚ)
    (h1 : hh < top) (h2 : s.handler.prevTop ≠ 0)
    (hdir : (d = .enter ∧ top < s.handler.prevTop) ∨
            (d = .leave ∧ s.handler.prevTop < top)) :
    captureFlag d (deliverStep cfg d v s).handler = true ∧
    (scrollStep now top hh (deliverStep cfg d v s)).samples =
      (deliverStep cfg d v s).samples ++ [⟨d, now, top, 0⟩] := by
  refine ⟨deliverStep_flag_self cfg d v s, ?_⟩
  rcases hdir with ⟨hd, hlt⟩ | ⟨hd, hlt⟩
  · subst hd
    have h2' : (deliverStep cfg .enter v s).handler.prevTop ≠ 0 := by
      rw [deliverStep_prevTop]; exact h2
    have h3' : top < (deliverStep cfg .enter v s).handler.prevTop := by
      rw [deliverStep_prevTop]; exact hlt
    have h4' :
        (deliverStep cfg .enter v s).handler.captureEnterDelta = true :=
      deliverStep_flag_self cfg .enter v s
    rw [scrollStep_starts_enter now top hh _ h1 h2' h3' h4']
  · subst hd
    have h2' : (deliverStep cfg .leave v s).handler.prevTop ≠ 0 := by
      rw [deliverStep_prevTop]; exact h2
    have h3' : (deliverStep cfg .leave v s).handler.prevTop < top := by
      rw [deliverStep_prevTop]; exact hlt
    have h4' :
        (deliverStep cfg .leave v s).handler.captureLeaveDelta = true :=
      deliverStep_flag_self cfg .leave v s
    rw [scrollStep_starts_leave now top hh _ h1 h2' h3' h4']

/-- One animation-frame tick observation inside `captureDelta`:
(`performance.now()`, `getScrollTop()`) at that tick. -/
abbrev Tick := ℚ × ℚ

/-- `captureDelta`'s `rafDelta` loop, defunctionalised over the stream
of animation-frame ticks it would observe: given the window size `N`
(`CAPTURE_DELTA_FRAME_COUNT`), the starting timestamp and offset, and
the current `frameCount`, it consumes ticks one per frame; on a tick
with `frameCount = N` it delivers
`Math.abs(startY - nextY) / (performance.now() - startMs)` and stops
(no reschedule), otherwise it increments `frameCount` and reschedules.
Returns the list of delivered values and the number of ticks at which
a callback actually ran. -/
def rafRun (N : ℕ) (startMs startY : ℚ) :
    ℕ → List Tick → List JSNum × ℕ
  | _, [] => ([], 0)
  | frameCount, (now, y) :: rest =>
      if frameCount = N then
        ([jsDiv |startY - y| (now - startMs)], 1)
      else
        let r := rafRun N startMs startY (frameCount + 1) rest
        (r.1, r.2 + 1)

lemma rafRun_spec (N : ℕ) (sm sy : ℚ) :
    ∀ (ticks : List Tick) (fc k : ℕ), fc + k = N →
      ∀ h : k < ticks.length,
        rafRun N sm sy fc ticks =
          ([jsDiv |sy - (ticks.get ⟨k, h⟩).2|
              ((ticks.get ⟨k, h⟩).1 - sm)], k + 1) := by
  intro ticks
  induction ticks with
  | nil =>
      intro fc k _ h
      exact absurd h (by simp)
  | cons t rest ih =>
      intro fc k hsum h
      obtain ⟨now, y⟩ := t
      cases k with
      | zero =>
          have hfc : fc = N := by omega
          simp [rafRun, hfc]
      | succ k =>
          have hfc : fc ≠ N := by omega
          have hlen : k < rest.length := by
            simpa using Nat.lt_of_succ_lt_succ h
          have := ih (fc + 1) k (by omega) hlen
          simp [rafRun, hfc, this]

/-- C3: started with `frameCount = 0`, the sampler delivers its result
exactly once, on the tick at which the frame counter equals the window
size `N` (the `(N+1)`-st tick overall), with value
`abs(startY - endOffset) / elapsed`, and runs at no tick after that
one. -/
theorem captureDelta_delivers_once (N : ℕ) (startMs startY : ℚ)
    (ticks : List Tick) (h : N < ticks.length) :
    rafRun N startMs startY 0 ticks =
      ([jsDiv |startY - (ticks.get ⟨N, h⟩).2|
          ((ticks.get ⟨N, h⟩).1 - startMs)], N + 1) :=
  rafRun_spec N startMs startY ticks 0 N (by omega) h

/-- Witness for C3: a 2-frame window over four ticks delivers exactly
`|0 - 6| / (3 - 0) = 2` on the third tick and ignores the fourth. -/
theorem captureDelta_delivers_once_witness :
    2 < ([((1 : ℚ), (0 : ℚ)), (2, 3), (3, 6), (9, 9)] : List Tick).length ∧
    rafRun 2 0 0 0 [((1 : ℚ), (0 : ℚ)), (2, 3), (3, 6), (9, 9)] =
      ([JSNum.fin 2], 3) :=
  ⟨by decide,
    by
      rw [captureDelta_delivers_once 2 0 0
        [((1 : ℚ), (0 : ℚ)), (2, 3), (3, 6), (9, 9)] (by decide)]
      norm_num [jsDiv]⟩

/-- A state used by witnesses: the enter guard is disarmed (a sample
was in flight) and `prevTop = 50`. -/
def exDeliveryState : AppState :=
  { initState with
      handler :=
        { captureEnterDelta := false
          captureLeaveDelta := true
          prevTop := 50 } }

/-- Witness for C10: a sub-threshold enter delivery (`value = 0`)
re-arms the enter guard, and a following moving-up event starts a
fresh enter sample. -/
theorem guard_rearmed_after_delivery_witness :
    ((10 : ℚ) < 40 ∧ exDeliveryState.handler.prevTop ≠ 0 ∧
      ((Dir.enter = Dir.enter ∧
          (40 : ℚ) < exDeliveryState.handler.prevTop) ∨
       (Dir.enter = Dir.leave ∧
          exDeliveryState.handler.prevTop < 40))) ∧
    (captureFlag .enter
        (deliverStep exCfg .enter (.fin 0) exDeliveryState).handler =
          true ∧
     (scrollStep 1 40 10
        (deliverStep exCfg .enter (.fin 0) exDeliveryState)).samples =
       (deliverStep exCfg .enter (.fin 0) exDeliveryState).samples ++
         [⟨.enter, 1, 40, 0⟩]) :=
  ⟨⟨by norm_num, by decide, Or.inl ⟨rfl, by decide⟩⟩,
    guard_rearmed_after_delivery exCfg .enter (.fin 0) exDeliveryState
      1 40 10 (by norm_num) (by decide)
      (Or.inl ⟨rfl, by decide⟩)⟩

/-! ## Non-finite sample results (C4) -/

/-- C4 counterexample: a completed leave sample with zero displacement
over zero elapsed time yields `NaN`; the JavaScript comparison
`NaN >= leaveDelta` is `false`, so the callback leaves the visibility
flag unchanged (`true`), whereas a finite speed meeting `leaveDelta`
sets it to `false`.  The claim that any non-finite or non-numeric
result is treated as threshold-exceeded is therefore false for `NaN`. -/
theorem nan_sample_not_threshold_exceeded :
    capturedValue ⟨.leave, 0, 100, 10⟩ 0 100 = JSNum.nan ∧
    JSNum.geQ JSNum.nan exCfg.leaveDelta = false ∧
    (deliverStep exCfg .leave (capturedValue ⟨.leave, 0, 100, 10⟩ 0 100)
        initState).isVisible = true ∧
    (deliverStep exCfg .leave (JSNum.fin 1) initState).isVisible =
      false := by
  refine ⟨?_, rfl, ?_, ?_⟩
  · norm_num [capturedValue, jsDiv]
  · norm_num [capturedValue, jsDiv, deliverStep, JSNum.geQ, initState]
  · norm_num [deliverStep, JSNum.geQ, exCfg]

/-- C4 amended: a `+Infinity` sample result is treated as
threshold-exceeded for its direction (the flag flips exactly as for a
large finite speed), but a `NaN` result fails the `>=` comparison and
leaves the visibility flag unchanged. -/
theorem infinity_exceeds_threshold_nan_does_not (cfg : Config)
    (s : AppState) :
    ((deliverStep cfg .enter JSNum.inf s).isVisible = true ∧
     (deliverStep cfg .leave JSNum.inf s).isVisible = false) ∧
    (∀ d : Dir,
      (deliverStep cfg d JSNum.nan s).isVisible = s.isVisible) := by
  refine ⟨⟨rfl, rfl⟩, ?_⟩
  intro d
  cases d <;> rfl

/-! ## Listener lifecycle (C8, C9) -/

/-- `removeEventListener('scroll', onScroll)` on the given root:
deregisters `onScroll` there (a no-op if it was not registered); other
roots' registrations are untouched. -/
def listenerRemove (roots : List ℕ) (root : ℕ) : List ℕ :=
  roots.filter (fun r => r ≠ root)

/-- `addEventListener('scroll', onScroll, { passive: true })` on the
given root: registers `onScroll` there; registering the same listener
twice on the same root is a no-op. -/
def listenerAdd (roots : List ℕ) (root : ℕ) : List ℕ :=
  if root ∈ roots then roots else root :: roots

lemma mem_listenerRemove (r root : ℕ) (roots : List ℕ) :
    r ∈ listenerRemove roots root ↔ (r ∈ roots ∧ r ≠ root) := by
  simp [listenerRemove]

lemma mem_listenerAdd (r root : ℕ) (roots : List ℕ) :
    r ∈ listenerAdd roots root ↔ (r = root ∨ r ∈ roots) := by
  unfold listenerAdd
  split
  · next h =>
      constructor
      · exact fun hr => Or.inr hr
      · rintro (rfl | hr)
        · exact h
        · exact hr
  · next h => simp [List.mem_cons]

lemma listenerRemove_idem (roots : List ℕ) (root : ℕ) :
    listenerRemove (listenerRemove roots root) root =
      listenerRemove roots root := by
  simp [listenerRemove, List.filter_filter]

/-- `toggleScollListener` (source spelling): resolves `getRoot()` at
call time — `root` is whatever the root ref holds at that moment —
then adds or removes the `onScroll` listener on that root and records
the listening state.  A scroll root is always resolvable in a browser
(`getRoot` falls back to `document.documentElement`), so the early
return for a missing root is not modelled. -/
def toggleScollListener (isRemove : Bool) (root : ℕ) (s : AppState) :
    AppState :=
  { s with
      attachedRoots :=
        if isRemove then listenerRemove s.attachedRoots root
        else listenerAdd s.attachedRoots root
      isListeningScroll := !isRemove }

/-- `resetListeners`: remove the scroll listener from the root resolved
at call time, disconnect the resize observer, reset the visibility
flag to `true`.  The scroll handler's closure (`prevTop`, guards) and
any in-flight samples are untouched.  When run as the watcher cleanup
the root ref already holds its new value, so `root` is the new root,
not the one the listener may sit on. -/
def resetListeners (root : ℕ) (s : AppState) : AppState :=
  let s1 := toggleScollListener true root s
  { s1 with observerConnected := false, isVisible := true }

/-- The body of the `watch` on `[target, root]` after a change: the
cleanup (`resetListeners`) runs first, resolving the root ref to its
new value `newRoot`; then — `if (_target)` tests the watched array,
which is always truthy — the resize observer is attached
unconditionally, and if the target is pinned (fixed/sticky and
displayed) the scroll listener is attached to `newRoot`
(scroll-restoration handling is deferred to a later frame and does not
change this state).  A target without a pinned position only differs
in the early `if (!isFixed()) return`. -/
def targetRootChange (newRoot : ℕ) (pinned : Bool) (s : AppState) :
    AppState :=
  let s1 := resetListeners newRoot s
  let s2 := { s1 with observerConnected := true }
  if pinned then toggleScollListener false newRoot s2 else s2

/-- C9: teardown is idempotent: one call leaves the flag `true`, the
scroll listener removed from the root resolved at disposal (the root
it was attached to, absent an unprocessed root change) and the
observer disconnected, and a second call starting from the torn-down
state changes nothing, for every state and root. -/
theorem resetListeners_idempotent (root : ℕ) (s : AppState) :
    (resetListeners root s).isVisible = true ∧
    (resetListeners root s).isListeningScroll = false ∧
    root ∉ (resetListeners root s).attachedRoots ∧
    (resetListeners root s).observerConnected = false ∧
    resetListeners root (resetListeners root s) =
      resetListeners root s := by
  refine ⟨rfl, rfl, ?_, rfl, ?_⟩
  · simp [resetListeners, toggleScollListener, mem_listenerRemove]
  · simp [resetListeners, toggleScollListener, listenerRemove_idem]

/-- A state listening on root `0`: listener registered there, observer
connected. -/
def exListeningState : AppState :=
  { initState with
      attachedRoots := [0]
      isListeningScroll := true
      observerConnected := true }

/-- Witness for C9: tearing down a state listening on root `0`. -/
theorem resetListeners_idempotent_witness :
    (resetListeners 0 exListeningState).isVisible = true ∧
    (resetListeners 0 exListeningState).isListeningScroll = false ∧
    (0 : ℕ) ∉ (resetListeners 0 exListeningState).attachedRoots ∧
    (resetListeners 0 exListeningState).observerConnected = false ∧
    resetListeners 0 (resetListeners 0 exListeningState) =
      resetListeners 0 exListeningState :=
  resetListeners_idempotent 0 exListeningState

/-- C8 counterexample.  Mount on root `0`, process one scroll event to
offset `100` (so `prevTop := 100`), then change the root to `1`.  The
cleanup's `removeEventListener` resolves `getRoot()` to the new root
`1`, so root `0`'s listener stays attached; and `createScrollHandler`
is invoked exactly once per `useFixedHeader` call, so `prevTop` is
still `100`, not the fresh value `0`.  Both contradict the claim that
the scroll listener is detached and no handler state carries over. -/
theorem stale_listener_and_handler_survive_root_change :
    (0 : ℕ) ∈ (targetRootChange 1 true
        (scrollStep 5 100 10
          (targetRootChange 0 true initState))).attachedRoots ∧
    (targetRootChange 1 true
        (scrollStep 5 100 10
          (targetRootChange 0 true initState))).handler.prevTop = 100 ∧
    (targetRootChange 1 true
        (scrollStep 5 100 10
          (targetRootChange 0 true initState))).handler.prevTop ≠
      initHandler.prevTop := by
  refine ⟨by decide, ?_, ?_⟩
  · norm_num [targetRootChange, resetListeners, toggleScollListener,
      scrollStep, initState, initHandler]
  · norm_num [targetRootChange, resetListeners, toggleScollListener,
      scrollStep, initState, initHandler]

/-- C8 amended: a target/root change resets the visibility flag to
`true`, disconnects and re-attaches the resize observer (the source's
`if (_target)` tests the watched array, which is always truthy), and
removes the scroll listener from the root resolved after the change —
so a listener on a root that just changed identity stays attached to
the old root; and the scroll handler's closure state (`prevTop`,
per-direction guards) and in-flight samples persist, because the
handler closure is created once per composable call. -/
theorem target_change_listener_and_handler_behavior
    (newRoot : ℕ) (pinned : Bool) (s : AppState) :
    (resetListeners newRoot s).isVisible = true ∧
    (resetListeners newRoot s).isListeningScroll = false ∧
    (resetListeners newRoot s).observerConnected = false ∧
    newRoot ∉ (resetListeners newRoot s).attachedRoots ∧
    (targetRootChange newRoot pinned s).observerConnected = true ∧
    (targetRootChange newRoot pinned s).isVisible = true ∧
    (targetRootChange newRoot pinned s).handler = s.handler ∧
    (targetRootChange newRoot pinned s).samples = s.samples ∧
    (∀ r : ℕ, r ≠ newRoot →
      (r ∈ (targetRootChange newRoot pinned s).attachedRoots ↔
        r ∈ s.attachedRoots)) := by
  refine ⟨rfl, rfl, rfl, ?_, ?_, ?_, ?_, ?_, ?_⟩
  · simp [resetListeners, toggleScollListener, mem_listenerRemove]
  · cases pinned <;> rfl
  · cases pinned <;> rfl
  · cases pinned <;> rfl
  · cases pinned <;> rfl
  · intro r hr
    cases pinned with
    | false =>
        simp [targetRootChange, resetListeners, toggleScollListener,
          mem_listenerRemove, hr]
    | true =>
        simp [targetRootChange, resetListeners, toggleScollListener,
          mem_listenerAdd, mem_listenerRemove, hr]

/-- A state listening on root `0` whose handler has already processed
a scroll event to offset `100`. -/
def exStaleState : AppState :=
  { initState with
      attachedRoots := [0]
      isListeningScroll := true
      observerConnected := true
      handler := { initHandler with prevTop := 100 } }

/-- Witness for C8's amended theorem: root change from `0` to `1` with
the listener attached on root `0` and `prevTop = 100`; root `0`'s
registration is preserved. -/
theorem target_change_listener_and_handler_behavior_witness :
    (resetListeners 1 exStaleState).isVisible = true ∧
    (targetRootChange 1 true exStaleState).handler =
      exStaleState.handler ∧
    ((0 : ℕ) ≠ 1 ∧
      ((0 : ℕ) ∈ (targetRootChange 1 true exStaleState).attachedRoots ↔
        (0 : ℕ) ∈ exStaleState.attachedRoots)) := by
  refine ⟨?_, ?_, by decide, ?_⟩
  · exact (target_change_listener_and_handler_behavior 1 true
      exStaleState).1
  · exact (target_change_listener_and_handler_behavior 1 true
      exStaleState).2.2.2.2.2.2.1
  · exact (target_change_listener_and_handler_behavior 1 true
      exStaleState).2.2.2.2.2.2.2.2 0 (by decide)

/-! ## Style applicator (C6, C7) -/

/-- The target element's style-relevant state: its inline styles and
whether a one-shot `ontransitionend` handler is currently armed. -/
structure Element where
  styles : Styles
  transitionHandlerArmed : Bool
deriving DecidableEq, Repr

/-- `onHidden`: applies the configured leave style set, then arms the
one-shot `ontransitionend` handler. -/
def onHiddenEl (cfg : Config) (el : Element) : Element :=
  { styles := applyStyles el.styles cfg.leaveStyles
    transitionHandlerArmed := true }

/-- The `ontransitionend` handler installed by `onHidden`, fired when
the CSS transition finishes: if armed, it forces `visibility: hidden`
exactly when the visibility flag is `false` at that moment, and in
either case clears itself (`el.ontransitionend = null`); if not armed,
a transition end has no effect. -/
def fireTransitionEnd (isVisibleNow : Bool) (el : Element) : Element :=
  if el.transitionHandlerArmed then
    { styles :=
        if isVisibleNow then el.styles
        else applyStyles el.styles VISIBILITY_HIDDEN
      transitionHandlerArmed := false }
  else el

/-- C7: hiding is two-phase: `onHidden` applies the leave styles and
arms the one-shot handler; on transition end the handler forces
`visibility: hidden` iff the flag is still `false`, is cleared after
firing once, and a second transition end is a no-op. -/
theorem hide_two_phase (cfg : Config) (el : Element)
    (flagAtFire : Bool) :
    (onHiddenEl cfg el).transitionHandlerArmed = true ∧
    (onHiddenEl cfg el).styles = applyStyles el.styles cfg.leaveStyles ∧
    (flagAtFire = false →
      (fireTransitionEnd flagAtFire (onHiddenEl cfg el)).styles =
        applyStyles (onHiddenEl cfg el).styles VISIBILITY_HIDDEN) ∧
    (flagAtFire = true →
      (fireTransitionEnd flagAtFire (onHiddenEl cfg el)).styles =
        (onHiddenEl cfg el).styles) ∧
    (fireTransitionEnd flagAtFire
        (onHiddenEl cfg el)).transitionHandlerArmed = false ∧
    (∀ b : Bool,
      fireTransitionEnd b (fireTransitionEnd flagAtFire
        (onHiddenEl cfg el)) =
        fireTransitionEnd flagAtFire (onHiddenEl cfg el)) := by
  cases flagAtFire with
  | false =>
      exact ⟨rfl, rfl, fun _ => rfl, fun h => absurd h (by simp),
        rfl, fun _ => rfl⟩
  | true =>
      exact ⟨rfl, rfl, fun h => absurd h (by simp), fun _ => rfl,
        rfl, fun _ => rfl⟩

/-- Witness for C7 with empty initial styles and the flag `false` at
fire time. -/
theorem hide_two_phase_witness :
    (onHiddenEl exCfg ⟨[], false⟩).transitionHandlerArmed = true ∧
    (onHiddenEl exCfg ⟨[], false⟩).styles =
      applyStyles ([] : Styles) exCfg.leaveStyles ∧
    (false = false →
      (fireTransitionEnd false (onHiddenEl exCfg ⟨[], false⟩)).styles =
        applyStyles (onHiddenEl exCfg ⟨[], false⟩).styles
          VISIBILITY_HIDDEN) ∧
    (false = true →
      (fireTransitionEnd false (onHiddenEl exCfg ⟨[], false⟩)).styles =
        (onHiddenEl exCfg ⟨[], false⟩).styles) ∧
    (fireTransitionEnd false
        (onHiddenEl exCfg ⟨[], false⟩)).transitionHandlerArmed = false ∧
    (∀ b : Bool,
      fireTransitionEnd b (fireTransitionEnd false
        (onHiddenEl exCfg ⟨[], false⟩)) =
        fireTransitionEnd false (onHiddenEl exCfg ⟨[], false⟩)) :=
  hide_two_phase exCfg ⟨[], false⟩ false

/-- The state the scroll-restoration check acts on: the visibility
flag and the target element. -/
structure MountState where
  isVisible : Bool
  el : Element
deriving DecidableEq, Repr

/-- The body of the callback that `onInstantScrollRestoration` defers
by exactly one animation frame (`requestAnimationFrame`): if the
current offset exceeds `1.2×` the header extent, force the visibility
flag to `false` and apply the leave style set together with
`visibility: hidden` directly, touching no transition handler;
otherwise change nothing. -/
def instantScrollRestorationCheck (cfg : Config) (top hh : ℚ)
    (s : MountState) : MountState :=
  if hh * (6/5) < top then
    { isVisible := false
      el := { s.el with
                styles := applyStyles s.el.styles
                  (cfg.leaveStyles ++ VISIBILITY_HIDDEN) } }
  else s

/-- C6: the restoration check run one frame after a pinned mount: when
the offset exceeds `1.2×` the header extent it sets the flag to
`false` and applies the leave styles plus hidden visibility in the
same turn, leaving the transition handler unarmed; otherwise neither
the flag nor the styles change. -/
theorem scroll_restoration_check (cfg : Config) (top hh : ℚ)
    (s : MountState) :
    (hh * (6/5) < top →
      (instantScrollRestorationCheck cfg top hh s).isVisible = false ∧
      (instantScrollRestorationCheck cfg top hh s).el.styles =
        applyStyles s.el.styles
          (cfg.leaveStyles ++ VISIBILITY_HIDDEN) ∧
      (instantScrollRestorationCheck cfg top hh
          s).el.transitionHandlerArmed = s.el.transitionHandlerArmed) ∧
    (¬ hh * (6/5) < top →
      instantScrollRestorationCheck cfg top hh s = s) := by
  constructor
  · intro h
    simp [instantScrollRestorationCheck, h]
  · intro h
    simp [instantScrollRestorationCheck, h]

/-- Witness for C6: header extent `80`, page loads at offset `200`
(`96 < 200`), starting visible with empty styles and no armed
handler. -/
theorem scroll_restoration_check_witness :
    ((80 : ℚ) * (6/5) < 200 →
      (instantScrollRestorationCheck exCfg 200 80
          ⟨true, ⟨[], false⟩⟩).isVisible = false ∧
      (instantScrollRestorationCheck exCfg 200 80
          ⟨true, ⟨[], false⟩⟩).el.styles =
        applyStyles ([] : Styles)
          (exCfg.leaveStyles ++ VISIBILITY_HIDDEN) ∧
      (instantScrollRestorationCheck exCfg 200 80
          ⟨true, ⟨[], false⟩⟩).el.transitionHandlerArmed = false) ∧
    (¬ (80 : ℚ) * (6/5) < 200 →
      instantScrollRestorationCheck exCfg 200 80 ⟨true, ⟨[], false⟩⟩ =
        ⟨true, ⟨[], false⟩⟩) :=
  scroll_restoration_check exCfg 200 80 ⟨true, ⟨[], false⟩⟩

end FixedHeader
